import Mathlib

/-!
Verification of the local multi-service startup orchestrator of the
second-brain desktop shell (Rust sources under src/frontend/src-tauri/src).

The Rust code is shallowly embedded: OS interactions (socket binds, process
spawns, file reads, readiness probes, clocks) are passed in as explicit
environment records of oracle functions, machine integers are modelled as
Nat with explicit bounds checks where u16 overflow matters, and the f64
arithmetic of the backoff engine is modelled as exact rational arithmetic
with truncation toward zero (faithful on the exactly representable inputs
exercised here; noted at the definition).
-/

/-- Embeds port_utils.rs ProcessInfo: pid plus best-effort process name. -/
structure ProcessInfo where
  pid : Nat
  name : Option String
deriving DecidableEq

/-- The OS socket/process environment seen by the port utilities:
avail p is the result a TcpListener bind on 127.0.0.1:p would report at the
moment of the call, procOnPort p is the best-effort occupant lookup. -/
structure OsEnv where
  avail : Nat → Bool
  procOnPort : Nat → Option ProcessInfo

/-- Embeds port_utils.rs is_port_available. -/
def is_port_available (env : OsEnv) (port : Nat) : Bool :=
  env.avail port

/-- Embeds port_utils.rs PortStatus. -/
inductive PortStatus where
  | Available : PortStatus
  | InUse : Option ProcessInfo → PortStatus
  | Reserved : PortStatus
  | Invalid : PortStatus
deriving DecidableEq

/-- Loop body of port_utils.rs find_available_port: the Rust for-loop over
offset in 0..max_attempts with early return, written with the remaining
iteration count as the recursion argument (remaining = max_attempts - offset).
The u16 saturating_add start_port.saturating_add(offset) is min _ 65535. -/
def findLoop (env : OsEnv) (start : Nat) : Nat → Nat → Option Nat
  | 0, _ => none
  | remaining + 1, offset =>
    let port := min (start + offset) 65535
    if env.avail port then some port else findLoop env start remaining (offset + 1)

/-- Embeds port_utils.rs find_available_port. -/
def find_available_port (env : OsEnv) (start_port : Nat) (max_attempts : Nat) : Option Nat :=
  findLoop env start_port max_attempts 0

/-- Embeds port_utils.rs validate_port. -/
def validate_port (env : OsEnv) (port : Nat) : PortStatus :=
  if port = 0 then PortStatus.Invalid
  else if port < 1024 then PortStatus.Reserved
  else if is_port_available env port then PortStatus.Available
  else PortStatus.InUse (env.procOnPort port)

/-- Embeds startup.rs StartupConfig. Delay fields are u64 millisecond
values; backoff_multiplier is an f64 in the source, modelled as an exact
rational (every concrete multiplier used by the program, 2.0 and 1.5, is
exactly representable, and the claims that quantify over all multipliers
range over the rational values of finite f64 numbers). -/
structure StartupConfig where
  initial_delay_ms : Nat
  max_delay_ms : Nat
  backoff_multiplier : ℚ
  max_attempts : Nat
  timeout_secs : Nat
deriving DecidableEq

/-- Embeds startup.rs ExponentialBackoff: the mutable cursor fields
current_attempt and current_delay_ms over an immutable StartupConfig. -/
structure ExponentialBackoff where
  config : StartupConfig
  current_attempt : Nat
  current_delay_ms : Nat
deriving DecidableEq

/-- Embeds ExponentialBackoff::new: current_delay_ms starts at
config.initial_delay_ms (no clamping), current_attempt at 0. -/
def ExponentialBackoff.new (config : StartupConfig) : ExponentialBackoff :=
  { config := config, current_attempt := 0, current_delay_ms := config.initial_delay_ms }

/-- Embeds ExponentialBackoff::next_delay. Returns the delay (None once
current_attempt has reached max_attempts) together with the updated state.
The Rust update ((current_delay_ms as f64) * multiplier).min(max_delay_ms
as f64) as u64 is modelled with exact arithmetic: the product
current_delay_ms * multiplier is the rational with numerator
current_delay_ms * num and denominator den; flooring it (Int.fdiv) and
then taking min with max_delay_ms equals taking min first and then
truncating, because max_delay_ms is a nonnegative integer and floor
commutes with min against an integer bound, while Int.toNat is the
clamping of the as u64 cast for negative products. This coincides with
the f64 computation exactly when the casts and the product are exactly
representable, which holds for every input this development evaluates it
on (delays up to a few seconds, multipliers 2.0 and 1.5); statements
quantified over all policies use next_delay_float below, which does not
assume exactness of the product. -/
def ExponentialBackoff.next_delay (b : ExponentialBackoff) : Option Nat × ExponentialBackoff :=
  if b.config.max_attempts ≤ b.current_attempt then
    (none, b)
  else
    let delay := b.current_delay_ms
    let m := b.config.backoff_multiplier
    let next : Nat :=
      min (Int.toNat (Int.fdiv ((b.current_delay_ms : Int) * m.num) ((m.den : Int))))
        b.config.max_delay_ms
    (some delay,
      { b with current_attempt := b.current_attempt + 1, current_delay_ms := next })

/-- Embeds ExponentialBackoff::reset. -/
def ExponentialBackoff.reset (b : ExponentialBackoff) : ExponentialBackoff :=
  { b with current_attempt := 0, current_delay_ms := b.config.initial_delay_ms }

/-- Successive results of n next_delay calls starting from state b. -/
def backoffDelays : Nat → ExponentialBackoff → List (Option Nat)
  | 0, _ => []
  | n + 1, b =>
    let r := ExponentialBackoff.next_delay b
    r.1 :: backoffDelays n r.2

/-- Binary logarithm with explicit fuel (64 suffices for u64 inputs);
written with fuel so that it is structural and kernel-evaluable. -/
def log2fuel : Nat → Nat → Nat
  | 0, _ => 0
  | fuel + 1, n => if n < 2 then 0 else log2fuel fuel (n / 2) + 1

/-- The exact value of the Rust cast n as f64 for a u64 value n: below
2^53 the cast is exact; from 2^53 up, doubles in [2^k, 2^(k+1)) are the
multiples of 2^(k-52), and the cast rounds to the nearest such multiple
with ties going to the even multiple (round-half-even). The result of the
cast is always an integer for u64 inputs, so it is returned as a Nat. -/
def castF64 (n : Nat) : Nat :=
  if n < 2 ^ 53 then n
  else
    let u := 2 ^ (log2fuel 64 n - 52)
    let q := n / u
    let r := n % u
    if 2 * r < u then q * u
    else if u < 2 * r then q * u + u
    else if q % 2 = 0 then q * u else q * u + u

/-- An f64 value as it matters to the backoff update: a finite value
(every finite double is a rational) or one of the non-finite outcomes a
multiplication can produce. -/
inductive F64 where
  | finite : ℚ → F64
  | nan : F64
  | inf : F64
  | neginf : F64

/-- Rust f64::min of a value against a finite double M: componentwise min
on finite values, M when the left side is NaN (f64::min returns the
non-NaN operand) or positive infinity, negative infinity otherwise. -/
def f64min (a : F64) (M : ℚ) : F64 :=
  match a with
  | F64.finite q => F64.finite (min q M)
  | F64.nan => F64.finite M
  | F64.inf => F64.finite M
  | F64.neginf => F64.neginf

/-- The Rust saturating cast as u64 from f64: finite values are truncated
toward zero and clamped to the u64 range - a negative value truncates to
at most 0 and the cast clamps it at 0, and for a nonnegative rational the
truncation is the Nat division of the numerator by the denominator - NaN
and negative infinity go to 0, positive infinity to the u64 maximum. -/
def f64toU64 (a : F64) : Nat :=
  match a with
  | F64.finite q =>
    if q.num < 0 then 0 else min (q.num.toNat / q.den) (2 ^ 64 - 1)
  | F64.nan => 0
  | F64.inf => 2 ^ 64 - 1
  | F64.neginf => 0

/-- ExponentialBackoff::next_delay with the f64 arithmetic taken
literally: the value p of the f64 product (current_delay_ms as f64) *
multiplier is supplied by the caller, and the rest of the update - the
min against the cast of max_delay_ms (castF64, exact) and the saturating
cast back to u64 (f64toU64) - follows the code. A statement quantified
over p holds for every rounding the product may undergo, in particular
for the value the machine actually computes, without the embedding fixing
IEEE-754 multiplication. -/
def ExponentialBackoff.next_delay_float (p : F64) (b : ExponentialBackoff) :
    Option Nat × ExponentialBackoff :=
  if b.config.max_attempts ≤ b.current_attempt then
    (none, b)
  else
    let delay := b.current_delay_ms
    let next : Nat := f64toU64 (f64min p ((castF64 b.config.max_delay_ms : ℚ)))
    (some delay,
      { b with current_attempt := b.current_attempt + 1, current_delay_ms := next })

/-- One mutating call on a backoff state: either next_delay (discarding
the returned delay), carrying the f64 product value that call observes,
or reset. -/
inductive BackoffOpF where
  | next : F64 → BackoffOpF
  | reset : BackoffOpF

/-- Applies one call to a backoff state under the f64-faithful update. -/
def applyBackoffOpF (b : ExponentialBackoff) : BackoffOpF → ExponentialBackoff
  | BackoffOpF.next p => (ExponentialBackoff.next_delay_float p b).2
  | BackoffOpF.reset => ExponentialBackoff.reset b

/-- Applies a sequence of calls to a backoff state under the f64-faithful
update. -/
def applyBackoffOpsF (b : ExponentialBackoff) (ops : List BackoffOpF) : ExponentialBackoff :=
  ops.foldl applyBackoffOpF b

/-- The inductive invariant tying a backoff state to its policy. -/
def BackoffInv (cfg : StartupConfig) (b : ExponentialBackoff) : Prop :=
  b.config = cfg ∧ b.current_delay_ms ≤ cfg.max_delay_ms ∧
    b.current_attempt ≤ cfg.max_attempts

/-- The C1 policy: initial 100ms, max 1000ms, multiplier 2.0, 5 attempts. -/
def cfg100 : StartupConfig :=
  { initial_delay_ms := 100, max_delay_ms := 1000, backoff_multiplier := 2,
    max_attempts := 5, timeout_secs := 60 }

/-- A policy whose initial delay exceeds its max delay. -/
def badCfg : StartupConfig :=
  { initial_delay_ms := 2000, max_delay_ms := 1000, backoff_multiplier := 2,
    max_attempts := 5, timeout_secs := 60 }

/-- A policy whose equal initial and max delays sit just above 2^53, where
the u64 to f64 cast is no longer exact. -/
def cfg2p53 : StartupConfig :=
  { initial_delay_ms := 2 ^ 53 + 3, max_delay_ms := 2 ^ 53 + 3, backoff_multiplier := 2,
    max_attempts := 5, timeout_secs := 60 }

/-- An OS environment where every bind succeeds; used in witnesses. -/
def osAll : OsEnv := { avail := fun _ => true, procOnPort := fun _ => none }

/-- An OS environment where no bind ever succeeds. -/
def osNone : OsEnv := { avail := fun _ => false, procOnPort := fun _ => none }

/-- An OS environment where only ports from 50002 up bind; used in witnesses. -/
def osHigh : OsEnv := { avail := fun p => decide (50002 ≤ p), procOnPort := fun _ => none }

/-- Embeds database.rs PostgresError, keeping the constructors and
dropping the human-readable message payloads, which no claim inspects. -/
inductive PostgresError where
  | NotInitialized : PostgresError
  | BinaryNotFound : PostgresError
  | InitFailed : PostgresError
  | StartFailed : PostgresError
  | PortConflict : PostgresError
  | Timeout : PostgresError
  | ConfigError : PostgresError
deriving DecidableEq

/-- Outcome of an embedded Rust computation: a value, an error, or a
u16 arithmetic overflow (a panic in debug builds, a wrap in release
builds; either way outside the claimed behavior, so kept distinct). -/
inductive Res (α : Type) where
  | ok : α → Res α
  | err : PostgresError → Res α
  | panicked : Res α
deriving DecidableEq

/-- Embeds startup.rs StartupMetrics (durations as milliseconds, the error
text replaced by the originating error value). -/
structure StartupMetrics where
  postgres_startup_ms : Option Nat
  backend_startup_ms : Option Nat
  total_startup_ms : Option Nat
  postgres_retry_count : Nat
  backend_retry_count : Nat
  postgres_port : Option Nat
  backend_port : Option Nat
  success : Bool
  error : Option PostgresError
deriving DecidableEq

/-- Embeds StartupMetrics::new (all fields default). -/
def StartupMetrics.new : StartupMetrics :=
  { postgres_startup_ms := none, backend_startup_ms := none, total_startup_ms := none,
    postgres_retry_count := 0, backend_retry_count := 0, postgres_port := none,
    backend_port := none, success := false, error := none }

/-- Embeds StartupMetrics::mark_postgres_started. -/
def StartupMetrics.mark_postgres_started (m : StartupMetrics)
    (duration_ms port retries : Nat) : StartupMetrics :=
  { m with
    postgres_startup_ms := some duration_ms
    postgres_port := some port
    postgres_retry_count := retries }

/-- Embeds StartupMetrics::mark_backend_started. -/
def StartupMetrics.mark_backend_started (m : StartupMetrics)
    (duration_ms port retries : Nat) : StartupMetrics :=
  { m with
    backend_startup_ms := some duration_ms
    backend_port := some port
    backend_retry_count := retries }

/-- Embeds StartupMetrics::mark_complete. -/
def StartupMetrics.mark_complete (m : StartupMetrics) (total_ms : Nat) : StartupMetrics :=
  { m with total_startup_ms := some total_ms, success := true }

/-- Embeds StartupMetrics::mark_failed. -/
def StartupMetrics.mark_failed (m : StartupMetrics) (e : PostgresError) : StartupMetrics :=
  { m with success := false, error := some e }

/-- Embeds config.rs ServiceConfig. -/
structure ServiceConfig where
  postgres_port : Nat
  backend_port : Nat
  last_successful_startup : Option Nat
  schema_version : Nat
deriving DecidableEq

/-- Embeds the Default implementation of ServiceConfig. -/
def ServiceConfig.default : ServiceConfig :=
  { postgres_port := 5433, backend_port := 5001, last_successful_startup := none,
    schema_version := 1 }

/-- What the filesystem yields for the config file in ServiceConfig::load:
the file is missing, read_to_string fails, serde parsing fails, or a
ServiceConfig value is parsed. -/
inductive FileRead where
  | missing : FileRead
  | unreadable : FileRead
  | unparsable : FileRead
  | parsed : ServiceConfig → FileRead

/-- Embeds ServiceConfig::load: defaults on a missing, unreadable or
unparsable file and on a schema_version different from 1; the stored
values otherwise. -/
def ServiceConfig.load (file : FileRead) : ServiceConfig :=
  match file with
  | FileRead.missing => ServiceConfig.default
  | FileRead.unreadable => ServiceConfig.default
  | FileRead.unparsable => ServiceConfig.default
  | FileRead.parsed c =>
    if c.schema_version ≠ 1 then ServiceConfig.default else c

/-- Embeds ServiceConfig::mark_successful_startup, with the wall clock
passed in as the now argument. -/
def ServiceConfig.mark_successful_startup (c : ServiceConfig) (pg be now : Nat) : ServiceConfig :=
  { c with postgres_port := pg, backend_port := be, last_successful_startup := some now }

/-- Embeds the mutable state of database.rs PostgresManager: the stored
port, the initialized flag and the child-process handle (the path fields
are carried by the environment; startup_config is immutable). -/
structure PostgresManager where
  port : Nat
  initialized : Bool
  process : Option Unit
  startup_config : StartupConfig
deriving DecidableEq

/-- Embeds PostgresManager::ensure_port_available. Returns the result
together with the manager state after the call. The Rust source computes
current_port + 1 (as the probe start and in the error message) and
current_port + 10 (in the error message) with unchecked u16 addition, so
the embedding yields Res.panicked exactly when one of those additions
exceeds the u16 range on the path that evaluates it. -/
def PostgresManager.ensure_port_available (env : OsEnv) (m : PostgresManager) :
    Res Nat × PostgresManager :=
  match validate_port env m.port with
  | PortStatus.Available => (Res.ok m.port, m)
  | PortStatus.InUse _ =>
    if 65536 ≤ m.port + 1 then (Res.panicked, m)
    else
      match find_available_port env (m.port + 1) 10 with
      | some new_port => (Res.ok new_port, { m with port := new_port })
      | none =>
        if 65536 ≤ m.port + 10 then (Res.panicked, m)
        else (Res.err PostgresError.PortConflict, m)
  | PortStatus.Reserved => (Res.err PostgresError.PortConflict, m)
  | PortStatus.Invalid => (Res.err PostgresError.PortConflict, m)

/-- The outcome environment of PostgresManager::stop: whether the pg_ctl
binary exists, whether the pg_ctl stop command runs and reports success,
and whether a direct kill of the child would succeed. -/
structure StopEnv where
  pgCtlExists : Bool
  pgCtlStopOk : Bool
  killOk : Bool

/-- Embeds PostgresManager::stop, acting on the process-handle field: the
graceful pg_ctl path clears the handle and succeeds; otherwise the handle,
if present, is taken and killed (an error is returned only when that kill
fails); a missing handle falls through to success. -/
def PostgresManager.stop (env : StopEnv) (process : Option Unit) :
    Except String Unit × Option Unit :=
  if env.pgCtlExists && env.pgCtlStopOk then (Except.ok (), none)
  else
    match process with
    | some _ =>
      if env.killOk then (Except.ok (), none)
      else (Except.error "Failed to kill PostgreSQL", none)
    | none => (Except.ok (), none)

/-- The outcome environment of one PostgresManager startup run: the OS
port table, whether the postgres binary exists, the is_running probe, and
per-retry-iteration outcomes of attempt_start (spawn), of the readiness
wait, and of setup_database. -/
structure PgEnv where
  os : OsEnv
  binaryExists : Bool
  isRunning : Bool
  spawnOk : Nat → Bool
  readyOk : Nat → Bool
  setupOk : Bool

/-- The retry loop of PostgresManager::start_with_retry. The Rust loop has
no iteration bound of its own - it exits when the backoff reports
exhaustion - so it is embedded with a fuel argument that the caller sets
to max_attempts + 1, which the backoff exit makes exactly sufficient (the
fuel-exhausted branch is unreachable from start_with_retry). Iteration
outcomes are indexed by the backoff attempt counter. On a spawn success
the handle is set; a failed readiness wait kills it before retrying. -/
def startLoop (env : PgEnv) (port : Nat) :
    Nat → ExponentialBackoff → Option Unit → Res Nat × Option Unit
  | 0, _, proc => (Res.err PostgresError.Timeout, proc)
  | fuel + 1, b, proc =>
    if env.spawnOk b.current_attempt then
      if env.readyOk b.current_attempt then
        if env.setupOk then (Res.ok port, some ())
        else (Res.err PostgresError.StartFailed, some ())
      else
        match ExponentialBackoff.next_delay b with
        | (some _, b2) => startLoop env port fuel b2 none
        | (none, _) => (Res.err PostgresError.Timeout, none)
    else
      match ExponentialBackoff.next_delay b with
      | (some _, b2) => startLoop env port fuel b2 proc
      | (none, _) => (Res.err PostgresError.Timeout, proc)

/-- Embeds PostgresManager::start_with_retry: the initialized guard, the
port availability check (which may move the stored port), the is_running
short-circuit, the binary existence check, then the spawn/wait retry loop
driven by a fresh ExponentialBackoff over the manager startup config. -/
def PostgresManager.start_with_retry (env : PgEnv) (m : PostgresManager) :
    Res Nat × PostgresManager :=
  if !m.initialized then (Res.err PostgresError.NotInitialized, m)
  else
    match PostgresManager.ensure_port_available env.os m with
    | (Res.ok port, m1) =>
      if env.isRunning then (Res.ok port, m1)
      else if !env.binaryExists then (Res.err PostgresError.BinaryNotFound, m1)
      else
        let r := startLoop env port (m1.startup_config.max_attempts + 1)
          (ExponentialBackoff.new m1.startup_config) m1.process
        (r.1, { m1 with process := r.2 })
    | (Res.err e, m1) => (Res.err e, m1)
    | (Res.panicked, m1) => (Res.panicked, m1)

/-- Embeds the orchestration-relevant fields of lib.rs AppState. -/
structure AppState where
  postgres_port : Nat
  backend_port : Nat
  metrics : StartupMetrics
  is_postgres_ready : Bool
deriving DecidableEq

/-- The outcome environment of one start_services_internal run: the
manager environment (whose OS port table is also used by lib.rs port
checks), the config-file read, whether the app data directory resolves,
whether init_database succeeds, whether the backend remainder (spawn and
health wait, abstracted) succeeds, whether the config save succeeds, the
wall clock, and the elapsed timer readings. -/
structure LibEnv where
  pg : PgEnv
  fileRead : FileRead
  appDataDirOk : Bool
  initOk : Bool
  backendRestOk : Bool
  saveOk : Bool
  now : Nat
  pgElapsedMs : Nat
  backendElapsedMs : Nat
  totalElapsedMs : Nat

/-- The StartupConfig hard-coded in lib.rs start_postgres_internal:
initial 500ms, max 5000ms, multiplier 1.5, 5 attempts, 60s timeout. -/
def pgStartupConfig : StartupConfig :=
  { initial_delay_ms := 500, max_delay_ms := 5000,
    backoff_multiplier := ⟨3, 2, by decide, by decide⟩,
    max_attempts := 5, timeout_secs := 60 }

/-- The cached-config step at the top of lib.rs start_services_internal:
load the ServiceConfig and adopt each cached port that currently binds. -/
def cacheStep (env : LibEnv) (s : AppState) : AppState :=
  if env.appDataDirOk then
    let cached := ServiceConfig.load env.fileRead
    let s1 :=
      if env.pg.os.avail cached.postgres_port then
        { s with postgres_port := cached.postgres_port }
      else s
    if env.pg.os.avail cached.backend_port then
      { s1 with backend_port := cached.backend_port }
    else s1
  else s

/-- Embeds lib.rs start_postgres_internal: the availability check on the
requested port with unchecked + 1 / + 10 arithmetic on conflict (hence the
Res.panicked branches, as in ensure_port_available), the app-data-dir
resolution, init_database (collapsed to the environment flag initOk, its
success setting the initialized flag), manager start via start_with_retry,
and the adoption of the manager port into the state on success. -/
def start_postgres_internal (env : LibEnv) (s : AppState) : Res Unit × AppState :=
  let port := s.postgres_port
  let resolved : Res Nat × AppState :=
    if env.pg.os.avail port then (Res.ok port, s)
    else if 65536 ≤ port + 1 then (Res.panicked, s)
    else
      match find_available_port env.pg.os (port + 1) 10 with
      | some new_port => (Res.ok new_port, { s with postgres_port := new_port })
      | none =>
        if 65536 ≤ port + 10 then (Res.panicked, s)
        else (Res.err PostgresError.PortConflict, s)
  match resolved with
  | (Res.panicked, s1) => (Res.panicked, s1)
  | (Res.err e, s1) => (Res.err e, s1)
  | (Res.ok rport, s1) =>
    if !env.appDataDirOk then (Res.err PostgresError.ConfigError, s1)
    else if !env.initOk then (Res.err PostgresError.InitFailed, s1)
    else
      let m1 : PostgresManager :=
        { port := rport, initialized := true, process := none,
          startup_config := pgStartupConfig }
      match PostgresManager.start_with_retry env.pg m1 with
      | (Res.ok _, m2) =>
        (Res.ok (), { s1 with postgres_port := m2.port, is_postgres_ready := true })
      | (Res.err e, _) => (Res.err e, s1)
      | (Res.panicked, _) => (Res.panicked, s1)

/-- Embeds lib.rs start_backend_internal: the availability check on the
backend port with the same conflict search and unchecked arithmetic, the
app-data-dir resolution, then the remainder (secrets load, spawn, health
wait) collapsed to the environment flag backendRestOk, which no claim
inspects beyond success. -/
def start_backend_internal (env : LibEnv) (s : AppState) : Res Unit × AppState :=
  let port := s.backend_port
  let resolved : Res Nat × AppState :=
    if env.pg.os.avail port then (Res.ok port, s)
    else if 65536 ≤ port + 1 then (Res.panicked, s)
    else
      match find_available_port env.pg.os (port + 1) 10 with
      | some new_port => (Res.ok new_port, { s with backend_port := new_port })
      | none =>
        if 65536 ≤ port + 10 then (Res.panicked, s)
        else (Res.err PostgresError.PortConflict, s)
  match resolved with
  | (Res.panicked, s1) => (Res.panicked, s1)
  | (Res.err e, s1) => (Res.err e, s1)
  | (Res.ok _, s1) =>
    if !env.appDataDirOk then (Res.err PostgresError.ConfigError, s1)
    else if env.backendRestOk then (Res.ok (), s1)
    else (Res.err PostgresError.StartFailed, s1)

/-- Embeds lib.rs start_services_internal: reset the metrics, adopt cached
ports, start PostgreSQL then the backend (marking the metrics after each,
with the retry count hard-coded to 0 exactly as at lib.rs lines 447-451
and 481-485), mark completion, and attempt the best-effort config save,
whose failure does not change the Ok result. The third component is the
config-file content actually persisted (none when nothing was written). -/
def start_services_internal (env : LibEnv) (s0 : AppState) :
    Res Unit × AppState × Option ServiceConfig :=
  let s1 := { s0 with metrics := StartupMetrics.new }
  let s2 := cacheStep env s1
  match start_postgres_internal env s2 with
  | (Res.panicked, s3) => (Res.panicked, s3, none)
  | (Res.err e, s3) =>
    (Res.err e, { s3 with metrics := StartupMetrics.mark_failed s3.metrics e }, none)
  | (Res.ok _, s3) =>
    let s4 := { s3 with metrics :=
      StartupMetrics.mark_postgres_started s3.metrics env.pgElapsedMs s3.postgres_port 0 }
    match start_backend_internal env s4 with
    | (Res.panicked, s5) => (Res.panicked, s5, none)
    | (Res.err e, s5) =>
      (Res.err e, { s5 with metrics := StartupMetrics.mark_failed s5.metrics e }, none)
    | (Res.ok _, s5) =>
      let s6 := { s5 with metrics :=
        StartupMetrics.mark_backend_started s5.metrics env.backendElapsedMs s5.backend_port 0 }
      let s7 := { s6 with metrics := StartupMetrics.mark_complete s6.metrics env.totalElapsedMs }
      let written :=
        if env.appDataDirOk && env.saveOk then
          some (ServiceConfig.mark_successful_startup ServiceConfig.default
            s7.postgres_port s7.backend_port env.now)
        else none
      (Res.ok (), s7, written)

/-- A manager on the default port with everything initialized. -/
def mgrDefault : PostgresManager :=
  { port := 5433, initialized := true, process := none, startup_config := pgStartupConfig }

/-- A manager stuck on the top port 65535. -/
def mgr65535 : PostgresManager :=
  { port := 65535, initialized := true, process := none, startup_config := pgStartupConfig }

/-- A manager run where the readiness wait fails on the first two
iterations and succeeds on the third. -/
def pgEnvRetry : PgEnv :=
  { os := osAll, binaryExists := true, isRunning := false,
    spawnOk := fun _ => true, readyOk := fun i => decide (2 ≤ i), setupOk := true }

/-- The orchestration environment around pgEnvRetry with every other
collaborator succeeding. -/
def envRetry : LibEnv :=
  { pg := pgEnvRetry, fileRead := FileRead.missing, appDataDirOk := true, initOk := true,
    backendRestOk := true, saveOk := true, now := 1700000000,
    pgElapsedMs := 1234, backendElapsedMs := 2345, totalElapsedMs := 4000 }

/-- The OS table for the port-conflict scenario: ports 5433 to 5435 are
occupied, everything else binds (the free alternative is 5436, three above
the requested port). -/
def osConflict : OsEnv :=
  { avail := fun p => decide (p < 5433 ∨ 5435 < p), procOnPort := fun _ => none }

/-- A fully succeeding manager run over the conflict OS table. -/
def pgEnvConflict : PgEnv :=
  { os := osConflict, binaryExists := true, isRunning := false,
    spawnOk := fun _ => true, readyOk := fun _ => true, setupOk := true }

/-- The orchestration environment for the port-conflict scenario. -/
def envConflict : LibEnv :=
  { pg := pgEnvConflict, fileRead := FileRead.missing, appDataDirOk := true, initOk := true,
    backendRestOk := true, saveOk := true, now := 1700000000,
    pgElapsedMs := 900, backendElapsedMs := 800, totalElapsedMs := 1800 }

/-- The application state before a run: default ports, fresh metrics. -/
def appState0 : AppState :=
  { postgres_port := 5433, backend_port := 5001, metrics := StartupMetrics.new,
    is_postgres_ready := false }

/-- A stored config with a foreign schema version. -/
def cfg99 : ServiceConfig :=
  { postgres_port := 5500, backend_port := 5600, last_successful_startup := none,
    schema_version := 99 }

/-- A stored config with the current schema version. -/
def cfgV1 : ServiceConfig :=
  { postgres_port := 5434, backend_port := 5002, last_successful_startup := some 5,
    schema_version := 1 }

/-- The probing loop with zero remaining iterations yields none. -/
theorem findLoop_zero (env : OsEnv) (start offset : Nat) :
    findLoop env start 0 offset = none := rfl

/-- Characterization of the probing loop: starting at a given offset with a
given number of remaining candidates, it returns exactly the saturated
candidate at the first offset in the window whose bind succeeds. -/
theorem findLoop_eq_some_iff (env : OsEnv) (start : Nat) :
    ∀ (remaining offset p : Nat),
      findLoop env start remaining offset = some p ↔
        ∃ i, offset ≤ i ∧ i < offset + remaining ∧ p = min (start + i) 65535 ∧
          env.avail p = true ∧
          ∀ j, offset ≤ j → j < i → env.avail (min (start + j) 65535) = false := by
  intro remaining
  induction remaining with
  | zero =>
    intro offset p
    simp only [findLoop]
    constructor
    · intro h; exact absurd h (by simp)
    · rintro ⟨i, h1, h2, -, -, -⟩; exact absurd h2 (by omega)
  | succ n ih =>
    intro offset p
    simp only [findLoop]
    by_cases h : env.avail (min (start + offset) 65535) = true
    · rw [if_pos h]
      constructor
      · intro hsome
        obtain rfl : min (start + offset) 65535 = p := Option.some_inj.mp hsome
        refine ⟨offset, Nat.le_refl _, by omega, rfl, h, ?_⟩
        intro j hj1 hj2
        exact absurd (Nat.lt_of_le_of_lt hj1 hj2) (Nat.lt_irrefl _)
      · rintro ⟨i, hi1, hi2, hp, hav, hmin⟩
        rcases Nat.eq_or_lt_of_le hi1 with heq | hlt
        · rw [hp, ← heq]
        · exact absurd (hmin offset (Nat.le_refl _) hlt) (by simp [h])
    · rw [if_neg h]
      rw [ih (offset + 1) p]
      constructor
      · rintro ⟨i, hi1, hi2, hp, hav, hmin⟩
        refine ⟨i, by omega, by omega, hp, hav, ?_⟩
        intro j hj1 hj2
        rcases Nat.eq_or_lt_of_le hj1 with heq | hlt
        · rw [← heq]
          simpa using h
        · exact hmin j hlt hj2
      · rintro ⟨i, hi1, hi2, hp, hav, hmin⟩
        have hne : offset ≠ i := by
          intro heq
          rw [hp, ← heq] at hav
          exact absurd hav h
        refine ⟨i, by omega, by omega, hp, hav, ?_⟩
        intro j hj1 hj2
        exact hmin j (by omega) hj2

/-- Facts extracted from a successful probe: the returned port binds and
lies between the start port and the ceiling. -/
theorem find_available_port_some_facts (env : OsEnv) (start n p : Nat)
    (hs : start ≤ 65535) (h : find_available_port env start n = some p) :
    env.avail p = true ∧ start ≤ p ∧ p ≤ 65535 := by
  unfold find_available_port at h
  rw [findLoop_eq_some_iff env start n 0 p] at h
  obtain ⟨i, -, -, hp, hav, -⟩ := h
  exact ⟨hav, by omega, by omega⟩

/-- A port at or above 1024 whose bind succeeds classifies Available. -/
theorem validate_port_available (env : OsEnv) (p : Nat)
    (h1 : 1024 ≤ p) (h2 : env.avail p = true) :
    validate_port env p = PortStatus.Available := by
  unfold validate_port is_port_available
  rw [if_neg (by omega), if_neg (by omega), if_pos h2]

/-- Below 2^53 the u64 to f64 cast is exact. -/
theorem castF64_of_lt (n : Nat) (h : n < 2 ^ 53) : castF64 n = n := by
  unfold castF64
  rw [if_pos h]

/-- The saturating u64 cast of a finite value bounded by the natural
number M is bounded by M. -/
theorem f64toU64_finite_le (v : ℚ) (M : Nat) (h : v ≤ (M : ℚ)) :
    f64toU64 (F64.finite v) ≤ M := by
  show (if v.num < 0 then 0 else min (v.num.toNat / v.den) (2 ^ 64 - 1)) ≤ M
  by_cases hn : v.num < 0
  · rw [if_pos hn]
    exact Nat.zero_le _
  · rw [if_neg hn]
    refine le_trans (min_le_left _ _) ?_
    rw [Rat.le_def, Rat.num_natCast, Rat.den_natCast] at h
    simp only [Nat.cast_one, mul_one] at h
    have ha : v.num.toNat ≤ M * v.den := by
      rw [Int.toNat_le]
      calc v.num ≤ (M : Int) * (v.den : Int) := h
        _ = ((M * v.den : Nat) : Int) := by push_cast; ring
    calc v.num.toNat / v.den ≤ (v.den * M) / v.den :=
        Nat.div_le_div_right (by rw [Nat.mul_comm]; exact ha)
      _ = M := Nat.mul_div_cancel_left M v.pos

/-- The state component of next_delay_float, written as a conditional. -/
theorem next_delay_float_snd (p : F64) (b : ExponentialBackoff) :
    (ExponentialBackoff.next_delay_float p b).2 =
      if b.config.max_attempts ≤ b.current_attempt then b
      else
        { b with
          current_attempt := b.current_attempt + 1,
          current_delay_ms :=
            f64toU64 (f64min p ((castF64 b.config.max_delay_ms : ℚ))) } := by
  unfold ExponentialBackoff.next_delay_float
  by_cases hle : b.config.max_attempts ≤ b.current_attempt
  · rw [if_pos hle, if_pos hle]
  · rw [if_neg hle, if_neg hle]

/-- A fresh state satisfies the invariant when initial does not exceed max. -/
theorem backoffInv_new (cfg : StartupConfig) (h : cfg.initial_delay_ms ≤ cfg.max_delay_ms) :
    BackoffInv cfg (ExponentialBackoff.new cfg) :=
  ⟨rfl, h, Nat.zero_le _⟩

/-- With max_delay below 2^53 (its f64 cast exact), every next_delay call
preserves the invariant whatever value the f64 product takes, and so does
reset. -/
theorem backoffInvF_op (cfg : StartupConfig) (h : cfg.initial_delay_ms ≤ cfg.max_delay_ms)
    (h53 : cfg.max_delay_ms < 2 ^ 53)
    (b : ExponentialBackoff) (hb : BackoffInv cfg b) (op : BackoffOpF) :
    BackoffInv cfg (applyBackoffOpF b op) := by
  obtain ⟨hc, hd, ha⟩ := hb
  subst hc
  cases op with
  | next p =>
    simp only [applyBackoffOpF]
    rw [next_delay_float_snd]
    by_cases hle : b.config.max_attempts ≤ b.current_attempt
    · rw [if_pos hle]
      exact ⟨rfl, hd, ha⟩
    · rw [if_neg hle]
      refine ⟨rfl, ?_, ?_⟩
      · show f64toU64 (f64min p ((castF64 b.config.max_delay_ms : ℚ))) ≤
          b.config.max_delay_ms
        rw [castF64_of_lt b.config.max_delay_ms h53]
        cases p with
        | finite q => exact f64toU64_finite_le _ _ (min_le_right _ _)
        | nan => exact f64toU64_finite_le _ _ (le_refl _)
        | inf => exact f64toU64_finite_le _ _ (le_refl _)
        | neginf => exact Nat.zero_le _
      · show b.current_attempt + 1 ≤ b.config.max_attempts
        omega
  | reset =>
    exact ⟨rfl, h, Nat.zero_le _⟩

/-- The invariant is preserved by any sequence of calls under the
f64-faithful update. -/
theorem backoffInvF_ops (cfg : StartupConfig) (h : cfg.initial_delay_ms ≤ cfg.max_delay_ms)
    (h53 : cfg.max_delay_ms < 2 ^ 53)
    (b : ExponentialBackoff) (hb : BackoffInv cfg b) (ops : List BackoffOpF) :
    BackoffInv cfg (applyBackoffOpsF b ops) := by
  induction ops generalizing b with
  | nil => exact hb
  | cons op ops ih => exact ih (applyBackoffOpF b op) (backoffInvF_op cfg h h53 b hb op)

/-- Claim C1: for the policy with initial_delay 100ms, max_delay 1000ms,
multiplier 2.0 and max_attempts 5, the first five next_delay calls return
100, 200, 400, 800 and 1000 ms and the sixth returns none. -/
theorem c1_backoff_delay_sequence :
    backoffDelays 6 (ExponentialBackoff.new cfg100) =
      [some 100, some 200, some 400, some 800, some 1000, none] := by
  decide

/-- Claim C2: for every OS bind behavior, a port p with 0 < p < 1024 is
classified Reserved (independently of any bind result), and port 0 is
classified Invalid. -/
theorem c2_reserved_and_invalid (env : OsEnv) (p : Nat) (h0 : 0 < p) (h1 : p < 1024) :
    validate_port env p = PortStatus.Reserved ∧ validate_port env 0 = PortStatus.Invalid := by
  constructor
  · unfold validate_port
    rw [if_neg (by omega), if_pos h1]
  · rfl

/-- Witness for c2 at port 80. -/
theorem c2_reserved_and_invalid_witness :
    validate_port osAll 80 = PortStatus.Reserved ∧ validate_port osAll 0 = PortStatus.Invalid :=
  c2_reserved_and_invalid osAll 80 (by decide) (by decide)

/-- Claim C3: find_available_port probes the saturated candidates
min (start + offset) 65535 for offset below max_attempts, returning the
first one whose bind succeeds and none otherwise; with zero attempts it
returns none for every start. -/
theorem c3_find_available_port (env : OsEnv) (start n p : Nat) :
    find_available_port env start 0 = none ∧
    (find_available_port env start n = some p ↔
      ∃ i, i < n ∧ p = min (start + i) 65535 ∧ env.avail p = true ∧
        ∀ j, j < i → env.avail (min (start + j) 65535) = false) := by
  constructor
  · exact findLoop_zero env start 0
  · unfold find_available_port
    rw [findLoop_eq_some_iff env start n 0 p]
    constructor
    · rintro ⟨i, -, h2, h3, h4, h5⟩
      exact ⟨i, by omega, h3, h4, fun j hj => h5 j (Nat.zero_le _) hj⟩
    · rintro ⟨i, h1, h2, h3, h4⟩
      exact ⟨i, Nat.zero_le _, by omega, h2, h3, fun j _ hj => h4 j hj⟩

/-- Witness for c3: with binds succeeding from port 50002 up, probing from
50000 with five attempts returns 50002, by the characterization. -/
theorem c3_find_available_port_witness :
    find_available_port osHigh 50000 5 = some 50002 :=
  (c3_find_available_port osHigh 50000 5 50002).2.mpr
    ⟨2, by decide, by decide, by decide, by decide⟩

/-- Counterexample to claim C4 as stated: the state created from the policy
with initial_delay 2000ms and max_delay 1000ms violates the invariant
before any call (current_delay_ms is 2000, above max_delay_ms 1000), and
the first next_delay call returns that 2000ms delay. -/
theorem c4_counterexample :
    badCfg.max_delay_ms < (ExponentialBackoff.new badCfg).current_delay_ms ∧
    (ExponentialBackoff.next_delay (ExponentialBackoff.new badCfg)).1 = some 2000 := by
  decide

/-- The u64 to f64 cast rounds 2^53 + 3 up to 2^53 + 4 (round-half-even),
so at the policy with initial = max = 2^53 + 3 and multiplier 2.0 the real
program stores a delay above max_delay after one next_delay call: the
product of the cast values is exactly 2^54 + 8 (itself representable, so
the machine computes exactly this value), the f64 min against the cast of
max_delay yields 2^53 + 4, and the u64 cast stores 2^53 + 4 > 2^53 + 3.
This failure is what forces the max_delay < 2^53 hypothesis of the
amended claim C4. -/
theorem float_cap_violation_above_2_53 :
    castF64 (2 ^ 53 + 3) = 2 ^ 53 + 4 ∧
    cfg2p53.initial_delay_ms ≤ cfg2p53.max_delay_ms ∧
    (ExponentialBackoff.next_delay_float (F64.finite ((2 ^ 54 + 8 : Nat) : ℚ))
        (ExponentialBackoff.new cfg2p53)).2.current_delay_ms = 2 ^ 53 + 4 ∧
    cfg2p53.max_delay_ms = 2 ^ 53 + 3 := by
  decide

/-- Claim C4 (amended): for every policy whose initial_delay does not
exceed its max_delay and whose max_delay is below 2^53 (so that its u64
to f64 cast is exact), and every sequence of next_delay and reset calls
on the state created from it - whatever finite or non-finite values the
f64 product computations yield - current_delay_ms never exceeds
max_delay_ms and current_attempt never exceeds max_attempts. -/
theorem c4_backoff_state_invariant (cfg : StartupConfig) (ops : List BackoffOpF)
    (h : cfg.initial_delay_ms ≤ cfg.max_delay_ms) (h53 : cfg.max_delay_ms < 2 ^ 53) :
    (applyBackoffOpsF (ExponentialBackoff.new cfg) ops).current_delay_ms ≤
      cfg.max_delay_ms ∧
    (applyBackoffOpsF (ExponentialBackoff.new cfg) ops).current_attempt ≤
      cfg.max_attempts :=
  (backoffInvF_ops cfg h h53 (ExponentialBackoff.new cfg) (backoffInv_new cfg h) ops).2

/-- Witness for c4 on the 100ms policy and a three-call sequence whose
first product is the exact 200 and whose last is NaN. -/
theorem c4_backoff_state_invariant_witness :
    cfg100.initial_delay_ms ≤ cfg100.max_delay_ms ∧ cfg100.max_delay_ms < 2 ^ 53 ∧
    ((applyBackoffOpsF (ExponentialBackoff.new cfg100)
        [BackoffOpF.next (F64.finite ((200 : Nat) : ℚ)), BackoffOpF.reset,
          BackoffOpF.next F64.nan]).current_delay_ms ≤ cfg100.max_delay_ms ∧
      (applyBackoffOpsF (ExponentialBackoff.new cfg100)
        [BackoffOpF.next (F64.finite ((200 : Nat) : ℚ)), BackoffOpF.reset,
          BackoffOpF.next F64.nan]).current_attempt ≤ cfg100.max_attempts) :=
  ⟨by decide, by decide,
    c4_backoff_state_invariant cfg100
      [BackoffOpF.next (F64.finite ((200 : Nat) : ℚ)), BackoffOpF.reset,
        BackoffOpF.next F64.nan]
      (by decide) (by decide)⟩

/-- Stopping with no handle succeeds and leaves no handle, for every
outcome of pg_ctl and kill. -/
theorem stop_no_handle (e : StopEnv) :
    PostgresManager.stop e none = (Except.ok (), none) := by
  unfold PostgresManager.stop
  by_cases h : (e.pgCtlExists && e.pgCtlStopOk) = true
  · rw [if_pos h]
  · rw [if_neg h]

/-- Claim C7: stop on a supervisor with no handle returns success as a
no-op for every environment, and two consecutive stop calls both return
success. -/
theorem c7_stop_idempotent (e1 e2 : StopEnv) :
    (PostgresManager.stop e1 none).1 = Except.ok () ∧
    (PostgresManager.stop e2 (PostgresManager.stop e1 none).2).1 = Except.ok () := by
  rw [stop_no_handle e1]
  exact ⟨rfl, by rw [stop_no_handle e2]⟩

/-- Claim C8: load returns the default configuration (postgres 5433,
backend 5001, schema 1, no last_successful_startup) on a missing,
unreadable or unparsable file and on a schema_version other than 1, and
returns the stored values exactly when the file parses with schema 1. -/
theorem c8_config_load (c : ServiceConfig) :
    ServiceConfig.default =
      { postgres_port := 5433, backend_port := 5001, last_successful_startup := none,
        schema_version := 1 } ∧
    ServiceConfig.load FileRead.missing = ServiceConfig.default ∧
    ServiceConfig.load FileRead.unreadable = ServiceConfig.default ∧
    ServiceConfig.load FileRead.unparsable = ServiceConfig.default ∧
    (c.schema_version ≠ 1 → ServiceConfig.load (FileRead.parsed c) = ServiceConfig.default) ∧
    (c.schema_version = 1 → ServiceConfig.load (FileRead.parsed c) = c) := by
  refine ⟨rfl, rfl, rfl, rfl, ?_, ?_⟩
  · intro h
    show (if c.schema_version ≠ 1 then ServiceConfig.default else c) = ServiceConfig.default
    rw [if_pos h]
  · intro h
    show (if c.schema_version ≠ 1 then ServiceConfig.default else c) = c
    rw [if_neg (fun hn => hn h)]

/-- Witness for c8 on a schema-99 file and a schema-1 file. -/
theorem c8_config_load_witness :
    ServiceConfig.load (FileRead.parsed cfg99) = ServiceConfig.default ∧
    ServiceConfig.load (FileRead.parsed cfgV1) = cfgV1 :=
  ⟨(c8_config_load cfg99).2.2.2.2.1 (by decide), (c8_config_load cfgV1).2.2.2.2.2 rfl⟩

/-- Claim C9 (failing input): with the stored port at the u16 maximum
65535 and that port in use, ensure_port_available evaluates the unchecked
u16 sum current_port + 1, which overflows the port range rather than
returning a Result. -/
theorem c9_port_overflow :
    (PostgresManager.ensure_port_available osNone mgr65535).1 = Res.panicked := by
  decide

/-- Claim C10: ensure_port_available keeps the stored port consistent with
its result: an Ok p leaves the stored port equal to p, and any error
leaves the stored port unchanged. -/
theorem c10_ensure_port_state_consistency (env : OsEnv) (m : PostgresManager) :
    (∀ p, (PostgresManager.ensure_port_available env m).1 = Res.ok p →
        (PostgresManager.ensure_port_available env m).2.port = p) ∧
    (∀ e, (PostgresManager.ensure_port_available env m).1 = Res.err e →
        (PostgresManager.ensure_port_available env m).2.port = m.port) := by
  cases hv : validate_port env m.port with
  | Available =>
    simp [PostgresManager.ensure_port_available, hv]
  | InUse info =>
    by_cases h1 : 65536 ≤ m.port + 1
    · simp [PostgresManager.ensure_port_available, hv, h1]
    · cases hf : find_available_port env (m.port + 1) 10 with
      | some q =>
        simp only [PostgresManager.ensure_port_available, hv, h1, hf, if_neg h1]
        constructor
        · intro p hp
          cases hp
          rfl
        · intro e he
          exact absurd he (by simp)
      | none =>
        by_cases h2 : 65536 ≤ m.port + 10
        · simp [PostgresManager.ensure_port_available, hv, h1, hf, h2]
        · simp [PostgresManager.ensure_port_available, hv, h1, hf, h2]
  | Reserved =>
    simp [PostgresManager.ensure_port_available, hv]
  | Invalid =>
    simp [PostgresManager.ensure_port_available, hv]

/-- Witness for c10 on an all-available OS table and the default manager. -/
theorem c10_ensure_port_state_consistency_witness :
    (PostgresManager.ensure_port_available osAll mgrDefault).1 = Res.ok 5433 ∧
    (PostgresManager.ensure_port_available osAll mgrDefault).2.port = 5433 :=
  ⟨by decide, (c10_ensure_port_state_consistency osAll mgrDefault).1 5433 (by decide)⟩

/-- Claim C5 (divergence at the failing input): with the readiness wait
failing on the first two retry-loop iterations and succeeding on the third
(recorded in pgEnvRetry), and the hard-coded policy allowing 5 attempts,
the orchestration does reach the PostgreSQL-ready state, but the retry
count recorded into StartupMetrics is 0, not 2, because
start_services_internal passes a literal 0 to mark_postgres_started. -/
theorem c5_retry_count_recorded_zero :
    envRetry.pg.readyOk 0 = false ∧ envRetry.pg.readyOk 1 = false ∧
    envRetry.pg.readyOk 2 = true ∧
    (start_services_internal envRetry appState0).1 = Res.ok () ∧
    (start_services_internal envRetry appState0).2.1.is_postgres_ready = true ∧
    (start_services_internal envRetry appState0).2.1.metrics.postgres_retry_count = 0 := by
  decide

/-- A manager whose port classifies Available and whose first spawn, wait
and setup succeed starts on the first loop iteration, keeping its port. -/
theorem start_with_retry_first_try (env : PgEnv) (m : PostgresManager)
    (hinit : m.initialized = true)
    (hvp : validate_port env.os m.port = PortStatus.Available)
    (hrun : env.isRunning = false) (hbin : env.binaryExists = true)
    (hspawn : env.spawnOk 0 = true) (hready : env.readyOk 0 = true)
    (hsetup : env.setupOk = true) :
    PostgresManager.start_with_retry env m =
      (Res.ok m.port, { m with process := some () }) := by
  simp [PostgresManager.start_with_retry, PostgresManager.ensure_port_available,
    startLoop, ExponentialBackoff.new, hvp, hinit, hrun, hbin, hspawn, hready, hsetup]

/-- With the requested PostgreSQL port busy, an in-range alternative found
by the probe, and every later step succeeding at the first attempt,
start_postgres_internal succeeds and moves the state to the alternative. -/
theorem start_postgres_internal_conflict (env : LibEnv) (s : AppState) (alt : Nat)
    (hreq : 1024 ≤ s.postgres_port)
    (hbusy : env.pg.os.avail s.postgres_port = false)
    (hov : s.postgres_port + 1 ≤ 65535)
    (hfind : find_available_port env.pg.os (s.postgres_port + 1) 10 = some alt)
    (happ : env.appDataDirOk = true)
    (hinit : env.initOk = true)
    (hrun : env.pg.isRunning = false)
    (hbin : env.pg.binaryExists = true)
    (hspawn : env.pg.spawnOk 0 = true)
    (hready : env.pg.readyOk 0 = true)
    (hsetup : env.pg.setupOk = true) :
    start_postgres_internal env s =
      (Res.ok (), { s with postgres_port := alt, is_postgres_ready := true }) := by
  obtain ⟨havA, hgeA, -⟩ :=
    find_available_port_some_facts env.pg.os (s.postgres_port + 1) 10 alt (by omega) hfind
  have hvp : validate_port env.pg.os alt = PortStatus.Available :=
    validate_port_available env.pg.os alt (by omega) havA
  have hsw := start_with_retry_first_try env.pg
    { port := alt, initialized := true, process := none, startup_config := pgStartupConfig }
    rfl hvp hrun hbin hspawn hready hsetup
  have hov2 : ¬ 65536 ≤ s.postgres_port + 1 := by omega
  simp [start_postgres_internal, hbusy, hov2, hfind, happ, hinit, hsw]

/-- With the backend port free and the abstracted remainder succeeding,
start_backend_internal succeeds without changing the state. -/
theorem start_backend_internal_ok (env : LibEnv) (s : AppState)
    (hbe : env.pg.os.avail s.backend_port = true)
    (happ : env.appDataDirOk = true)
    (hbrest : env.backendRestOk = true) :
    start_backend_internal env s = (Res.ok (), s) := by
  simp [start_backend_internal, hbe, happ, hbrest]

/-- Composition shape of start_services_internal when both service starts
succeed: the final state marks the metrics and the persisted config (when
the directory resolves and the save succeeds) carries the final ports. -/
theorem start_services_internal_ok_shape (env : LibEnv) (s0 s3 s5 : AppState)
    (hpg : start_postgres_internal env
        (cacheStep env { s0 with metrics := StartupMetrics.new }) = (Res.ok (), s3))
    (hbk : start_backend_internal env
        { s3 with
          metrics := StartupMetrics.mark_postgres_started s3.metrics
            env.pgElapsedMs s3.postgres_port 0 } = (Res.ok (), s5)) :
    start_services_internal env s0 =
      (Res.ok (),
        { s5 with
          metrics := StartupMetrics.mark_complete
            (StartupMetrics.mark_backend_started s5.metrics env.backendElapsedMs
              s5.backend_port 0) env.totalElapsedMs },
        if env.appDataDirOk && env.saveOk then
          some (ServiceConfig.mark_successful_startup ServiceConfig.default
            s5.postgres_port s5.backend_port env.now)
        else none) := by
  simp only [start_services_internal]
  rw [hpg]
  dsimp only
  rw [hbk]

/-- Claim C6: when the requested database port (the state port after the
cached-config step) is occupied and the probe finds an in-range
alternative, while the later steps succeed on their first attempt,
start_services_internal returns Ok, the final state carries the
alternative port (strictly above the requested one), any ServiceConfig
written to the cache carries that alternative port rather than the
requested one, a successful save does write one, and a failed save still
leaves the overall result Ok (the Ok conclusion does not depend on the
save flag). -/
theorem c6_alternative_port_cached (env : LibEnv) (s0 s2 : AppState) (alt : Nat)
    (hs2 : s2 = cacheStep env { s0 with metrics := StartupMetrics.new })
    (hreq : 1024 ≤ s2.postgres_port)
    (hbusy : env.pg.os.avail s2.postgres_port = false)
    (hov : s2.postgres_port + 1 ≤ 65535)
    (hfind : find_available_port env.pg.os (s2.postgres_port + 1) 10 = some alt)
    (happ : env.appDataDirOk = true)
    (hinit : env.initOk = true)
    (hrun : env.pg.isRunning = false)
    (hbin : env.pg.binaryExists = true)
    (hspawn : env.pg.spawnOk 0 = true)
    (hready : env.pg.readyOk 0 = true)
    (hsetup : env.pg.setupOk = true)
    (hbe : env.pg.os.avail s2.backend_port = true)
    (hbrest : env.backendRestOk = true) :
    (start_services_internal env s0).1 = Res.ok () ∧
    (start_services_internal env s0).2.1.postgres_port = alt ∧
    s2.postgres_port < alt ∧
    (∀ cfg, (start_services_internal env s0).2.2 = some cfg → cfg.postgres_port = alt) ∧
    (env.saveOk = true → ∃ cfg, (start_services_internal env s0).2.2 = some cfg) := by
  have hlt : s2.postgres_port < alt := by
    obtain ⟨-, hge, -⟩ := find_available_port_some_facts env.pg.os
      (s2.postgres_port + 1) 10 alt (by omega) hfind
    omega
  subst hs2
  have hpg := start_postgres_internal_conflict env _ alt hreq hbusy hov hfind happ hinit
    hrun hbin hspawn hready hsetup
  have hshape := start_services_internal_ok_shape env s0 _ _ hpg
    (start_backend_internal_ok env _ hbe happ hbrest)
  rw [hshape]
  refine ⟨rfl, rfl, hlt, ?_, ?_⟩
  · intro cfg hcfg
    by_cases hsk : env.saveOk = true
    · simp only [happ, hsk, Bool.and_self, if_true] at hcfg
      obtain rfl := Option.some_inj.mp hcfg
      rfl
    · rw [Bool.not_eq_true] at hsk
      simp only [happ, hsk, Bool.true_and] at hcfg
      exact absurd hcfg (by simp)
  · intro hsk
    rw [happ, hsk]
    exact ⟨_, rfl⟩

/-- Witness for c6: requested port 5433 occupied along with 5434 and 5435,
so the run resolves to 5436 and reports success. -/
theorem c6_alternative_port_cached_witness :
    (start_services_internal envConflict appState0).1 = Res.ok () ∧
    (start_services_internal envConflict appState0).2.1.postgres_port = 5436 :=
  have h := c6_alternative_port_cached envConflict appState0
    (cacheStep envConflict { appState0 with metrics := StartupMetrics.new }) 5436 rfl
    (by decide) (by decide) (by decide) (by decide) (by decide) (by decide) (by decide)
    (by decide) (by decide) (by decide) (by decide) (by decide) (by decide)
  ⟨h.1, h.2.1⟩
